import Mathlib

/-!
Verification development for the gasguard dual-sensor gas detector core.

The definitions below are shallow embeddings of the JavaScript source:
* sensor fusion / alert level logic from src/hardware/hardwareManager.js
  (detectGasType, calculateConfidence, assessRisk, analyzeSensorAgreement,
  evaluateSensorData, determineAlertLevel, determineSmartAlertLevel,
  readSensorData's per-channel failure handling);
* the gas sensor conversion pipeline from the GasSensor class
  (calculateResistance, calculatePPM, applySensorCorrections, read);
* the per-pin GPIO write queue from the GPIOQueue class
  (enqueue / processQueue with the minimum inter-operation delay and retries);
* the SMS alert state machine from src/services/alertManager.js
  (updateAlertLevel, startPersistenceTimer, triggerSMSAlert, resetDetectionState);
* the GPS service from src/hardware/gpsAsync.js (isGoodFix, calculateAccuracy,
  updateSignalStrength, the tail of parseGGA, scheduleReconnect,
  savePersistedLocation / loadPersistedLocation, getLocationAge).

JavaScript numbers are modelled as ℚ where the code only adds, multiplies,
divides and compares (all constants in the relevant comparisons are far from
binary-float boundaries), and as ℝ where Math.pow with a fractional exponent
appears.  JavaScript truthiness tests on possibly-null numeric fields are
modelled on Option values as: present and nonzero.
-/

namespace GasGuard

/-! ### Enumerations used by the fusion and alert code -/

/-- Alert levels held by HardwareManager.currentAlertLevel. -/
inductive AlertLevel
  | normal
  | low
  | critical
deriving DecidableEq, Repr

/-- Risk buckets returned by assessRisk. -/
inductive RiskLevel
  | MINIMAL
  | LOW
  | MEDIUM
  | HIGH
deriving DecidableEq, Repr

/-- Agreement buckets returned by analyzeSensorAgreement. -/
inductive Agreement
  | PERFECT
  | EXCELLENT
  | GOOD
  | FAIR
  | POOR
  | DISAGREEMENT
deriving DecidableEq, Repr

/-- Gas types returned by detectGasType (the source uses strings). -/
inductive GasType
  | LPGButane
  | SmokeFire
  | LPGPropane
  | OtherGases
  | CleanAir
deriving DecidableEq, Repr

/-- Per-sensor contribution buckets returned by calculateSensorContribution. -/
inductive Contribution
  | HIGH
  | MEDIUM
  | LOW
  | NONE
deriving DecidableEq, Repr

/-- Recommendations returned by generateRecommendation. -/
inductive Recommendation
  | IMMEDIATE_EVACUATION
  | INVESTIGATE_SOURCE
  | MONITOR_CLOSELY
  | VERIFY_READING
  | NORMAL_OPERATION
deriving DecidableEq, Repr

/-- The two sensor channels (GasSensor constructor argument type). -/
inductive SensorKind
  | mq6
  | mq2
deriving DecidableEq, Repr

/-! ### Sensor fusion (hardwareManager.js) -/

/-- detectGasType: cross-channel ratios classify the gas.
Source uses mq6Data.ppm / Math.max(mq2Data.ppm, 1) and vice versa. -/
def detectGasType (p q : ℚ) : GasType :=
  let r6 := p / max q 1
  let r2 := q / max p 1
  if r6 > 3/2 ∧ p > 50 then GasType.LPGButane
  else if r2 > 2 ∧ q > 30 then GasType.SmokeFire
  else if p > 20 ∧ q > 20 then GasType.LPGPropane
  else if q > 10 ∧ p < 10 then GasType.OtherGases
  else GasType.CleanAir

/-- calculateConfidence: additive score, clamped to [0, 100]. -/
def calculateConfidence (p q : ℚ) : ℚ :=
  let maxPpm := max p q
  let minPpm := min p q
  let c1 : ℚ :=
    if maxPpm > 100 then 40
    else if maxPpm > 50 then 30
    else if maxPpm > 20 then 20
    else if maxPpm > 5 then 10
    else 0
  let c2 := if minPpm > 5 ∧ maxPpm > 0 then c1 + minPpm / maxPpm * 30 else c1
  let c3 := if maxPpm > 200 then c2 + 20 else c2
  min 100 (max 0 c3)

/-- Risk multipliers used by assessRisk (1.2, 1.1, 1.5, 0.8, 0.1). -/
def riskMultiplier : GasType → ℚ
  | GasType.LPGButane => 12/10
  | GasType.SmokeFire => 15/10
  | GasType.LPGPropane => 11/10
  | GasType.OtherGases => 8/10
  | GasType.CleanAir => 1/10

/-- assessRisk: maxPpm times the gas-type multiplier, bucketed. -/
def assessRisk (p q : ℚ) (g : GasType) : RiskLevel :=
  let baseRisk := max p q * riskMultiplier g
  if baseRisk > 300 then RiskLevel.HIGH
  else if baseRisk > 150 then RiskLevel.MEDIUM
  else if baseRisk > 50 then RiskLevel.LOW
  else RiskLevel.MINIMAL

/-- analyzeSensorAgreement: min/max ppm bucketed, PERFECT when max is 0. -/
def analyzeSensorAgreement (p q : ℚ) : Agreement :=
  let maxPpm := max p q
  let minPpm := min p q
  if maxPpm = 0 then Agreement.PERFECT
  else
    let a := minPpm / maxPpm
    if a > 8/10 then Agreement.EXCELLENT
    else if a > 6/10 then Agreement.GOOD
    else if a > 4/10 then Agreement.FAIR
    else if a > 2/10 then Agreement.POOR
    else Agreement.DISAGREEMENT

/-- calculateSensorContribution: per-channel thresholds. -/
def calculateSensorContribution (ppm : ℚ) (k : SensorKind) : Contribution :=
  match k with
  | SensorKind.mq6 =>
    if ppm > 100 then Contribution.HIGH
    else if ppm > 50 then Contribution.MEDIUM
    else if ppm > 20 then Contribution.LOW
    else Contribution.NONE
  | SensorKind.mq2 =>
    if ppm > 80 then Contribution.HIGH
    else if ppm > 40 then Contribution.MEDIUM
    else if ppm > 15 then Contribution.LOW
    else Contribution.NONE

/-- generateRecommendation: decision table on risk level and confidence.
The gasType argument is unused in the source body but kept for fidelity. -/
def generateRecommendation (_g : GasType) (r : RiskLevel) (c : ℚ) : Recommendation :=
  if r = RiskLevel.HIGH ∧ c > 70 then Recommendation.IMMEDIATE_EVACUATION
  else if r = RiskLevel.MEDIUM ∧ c > 60 then Recommendation.INVESTIGATE_SOURCE
  else if r = RiskLevel.LOW ∧ c > 50 then Recommendation.MONITOR_CLOSELY
  else if c < 30 then Recommendation.VERIFY_READING
  else Recommendation.NORMAL_OPERATION

/-- The fused assessment produced by evaluateSensorData. -/
structure FusedData where
  maxPpm : ℚ
  avgPpm : ℚ
  minPpm : ℚ
  gasType : GasType
  confidence : ℚ
  riskLevel : RiskLevel
  agreement : Agreement
  mq6Contribution : Contribution
  mq2Contribution : Contribution
  recommendation : Recommendation
deriving DecidableEq, Repr

/-- evaluateSensorData: pure fusion of the two channel ppm values. -/
def evaluateSensorData (mq6Ppm mq2Ppm : ℚ) : FusedData :=
  { maxPpm := max mq6Ppm mq2Ppm
    avgPpm := (mq6Ppm + mq2Ppm) / 2
    minPpm := min mq6Ppm mq2Ppm
    gasType := detectGasType mq6Ppm mq2Ppm
    confidence := calculateConfidence mq6Ppm mq2Ppm
    riskLevel := assessRisk mq6Ppm mq2Ppm (detectGasType mq6Ppm mq2Ppm)
    agreement := analyzeSensorAgreement mq6Ppm mq2Ppm
    mq6Contribution := calculateSensorContribution mq6Ppm SensorKind.mq6
    mq2Contribution := calculateSensorContribution mq2Ppm SensorKind.mq2
    recommendation :=
      generateRecommendation (detectGasType mq6Ppm mq2Ppm)
        (assessRisk mq6Ppm mq2Ppm (detectGasType mq6Ppm mq2Ppm))
        (calculateConfidence mq6Ppm mq2Ppm) }

/-- Default alert thresholds from the HardwareManager constructor
(normal 0-99, low 100-299, critical 300+). -/
def alertLowMin : ℚ := 100

/-- Default minimum ppm of the critical band. -/
def alertCriticalMin : ℚ := 300

/-- determineAlertLevel: simple threshold bands on ppm. -/
def determineAlertLevel (ppm : ℚ) : AlertLevel :=
  if ppm ≥ alertCriticalMin then AlertLevel.critical
  else if ppm ≥ alertLowMin then AlertLevel.low
  else AlertLevel.normal

/-- determineSmartAlertLevel: the smart rule cascade with the simple-band
fallback, in source order. -/
def determineSmartAlertLevel (f : FusedData) : AlertLevel :=
  if f.confidence > 70 ∧ f.riskLevel = RiskLevel.HIGH then AlertLevel.critical
  else if f.confidence > 50 ∧ f.riskLevel = RiskLevel.MEDIUM then AlertLevel.low
  else if f.maxPpm > 200 ∧ f.agreement = Agreement.EXCELLENT then AlertLevel.critical
  else if f.maxPpm > 100 ∧ f.agreement = Agreement.GOOD then AlertLevel.low
  else determineAlertLevel f.maxPpm

/-! ### GasSensor conversion pipeline (GasSensor class) -/

/-- The per-type power curve of calculatePPM: a / (Rs/Ro)^b with
a = 1000, b = 2.5 for MQ6 and a = 800, b = 2.2 for MQ2 (real exponent,
Math.pow in the source). -/
noncomputable def curvePpm (t : SensorKind) (q : ℝ) : ℝ :=
  match t with
  | SensorKind.mq6 => 1000 / q ^ ((5 : ℝ) / 2)
  | SensorKind.mq2 => 800 / q ^ ((11 : ℝ) / 5)

/-- calculatePPM: returns 0 outside (0, 1e6) resistance or nonpositive ratio,
otherwise the curve value clamped to [0, 10000] (clamp BEFORE the sensitivity
scaling applied later by applySensorCorrections). -/
noncomputable def calculatePPM (t : SensorKind) (resistance ro : ℝ) : ℝ :=
  if resistance ≤ 0 ∨ 1000000 ≤ resistance then 0
  else if resistance / ro ≤ 0 then 0
  else max 0 (min 10000 (curvePpm t (resistance / ro)))

/-- The fixed sensitivity factor from sensorParams (0.3 for both types). -/
noncomputable def sensorSensitivity (t : SensorKind) : ℝ :=
  match t with
  | SensorKind.mq6 => 3/10
  | SensorKind.mq2 => 3/10

/-- applySensorCorrections: ppm times sensitivity times the (unit)
temperature compensation. -/
noncomputable def applySensorCorrections (t : SensorKind) (ppm : ℝ) : ℝ :=
  ppm * sensorSensitivity t * 1

/-- calculateResistance: voltage to resistance with edge clamps
(Vout ≤ 0.01 gives 1e6, Vout ≥ 4.9 gives 100, else clamp to [100, 1e6]).
Note the source passes this.calibration.ro (5000) as the load resistance. -/
def calculateResistance (ro voltage : ℚ) : ℚ :=
  if voltage ≤ 1/100 then 1000000
  else if voltage ≥ 49/10 then 100
  else max 100 (min 1000000 ((5 - voltage) * ro / voltage))

/-- The ppm reported by a post-preheat read(): corrections applied to the
calculated ppm, then Math.max(0, correctedPpm). -/
noncomputable def readPpm (t : SensorKind) (resistance ro : ℝ) : ℝ :=
  max 0 (applySensorCorrections t (calculatePPM t resistance ro))

/-- Modelled from the spec sentence of claim C7 (for comparison with the
source pipeline): the curve value scaled by the sensitivity factor and THEN
clamped to [0, 10000]. -/
noncomputable def specClaimedReadPpm (t : SensorKind) (resistance ro : ℝ) : ℝ :=
  max 0 (min 10000 (curvePpm t (resistance / ro) * sensorSensitivity t))

/-! ### GPIO write queue (GPIOQueue class)

The queue is per pin; all claims concern a single pin, so an execution of
processQueue for one pin is modelled as a deterministic trace.  Time is in
milliseconds (ℕ).  The outcome and duration of the delegated hardware write
(executeOperation, an external collaborator) are inputs, one per attempt. -/

/-- minDelay: minimum spacing between operations on one pin. -/
def minDelay : Nat := 100

/-- One operation as built by enqueue (resolve/reject are represented by the
`resolved` flag of the run result; results/durations model the external
exec outcome of each attempt). -/
structure GPIOOp where
  value : Nat
  results : Nat → Bool
  durations : Nat → Nat
  maxRetries : Nat

/-- One executed hardware-write attempt in a trace. -/
structure Attempt where
  opIdx : Nat
  attempt : Nat
  start : Nat
  finish : Nat
  ok : Bool
deriving DecidableEq, Repr

/-- Result of draining one operation (or a whole queue). -/
structure RunResult where
  trace : List Attempt
  now : Nat
  lastOp : Nat
  resolved : Bool
deriving DecidableEq, Repr

/-- The wait at the top of the processQueue loop:
timeSinceLast = now - lastOp; if < minDelay, sleep the difference.
The attempt therefore starts at lastOp + minDelay in that case, else at now. -/
def waitStart (now lastOp : Nat) : Nat :=
  if now - lastOp < minDelay then lastOp + minDelay else now

/-- The retry loop of processQueue for a single operation.  The source
counter `retries` starts at 0, is incremented after a failure, and the
operation is retried (after a 100ms backoff) only while the incremented
counter is `< maxRetries`; `remaining = maxRetries - 1 - attempt index`
encodes exactly that guard, so an operation is attempted at most
`maxRetries` times.  On success, lastOperation is set to the finish time and
the promise resolves; on final failure the promise rejects and lastOperation
is unchanged. -/
def runAttempts (op : GPIOOp) (opIdx : Nat) :
    Nat → Nat → Nat → Nat → RunResult
  | remaining, k, now, lastOp =>
    let s := waitStart now lastOp
    let f := s + op.durations k
    if op.results k then
      ⟨[⟨opIdx, k, s, f, true⟩], f, f, true⟩
    else
      match remaining with
      | r + 1 =>
        let rest := runAttempts op opIdx r (k + 1) (f + minDelay) lastOp
        ⟨⟨opIdx, k, s, f, false⟩ :: rest.trace, rest.now, rest.lastOp, rest.resolved⟩
      | 0 => ⟨[⟨opIdx, k, s, f, false⟩], f, lastOp, false⟩

/-- Drain one queued operation, starting its retry counter at 0.
enqueue sets maxRetries = 2 on every operation. -/
def processOp (op : GPIOOp) (opIdx now lastOp : Nat) : RunResult :=
  runAttempts op opIdx (op.maxRetries - 1) 0 now lastOp

/-- Result of draining a whole FIFO: trace, final clock and lastOperation
time, and the per-operation resolutions in completion order. -/
structure QueueResult where
  trace : List Attempt
  now : Nat
  lastOp : Nat
  resolutions : List Bool
deriving DecidableEq, Repr

/-- processQueue: drain the FIFO front to back, one operation at a time. -/
def processOps : List GPIOOp → Nat → Nat → Nat → QueueResult
  | [], _, now, lastOp => ⟨[], now, lastOp, []⟩
  | op :: rest, opIdx, now, lastOp =>
    let r := processOp op opIdx now lastOp
    let q := processOps rest (opIdx + 1) r.now r.lastOp
    ⟨r.trace ++ q.trace, q.now, q.lastOp, r.resolved :: q.resolutions⟩

/-- The ordering guaranteed on a pin's trace: execution follows submission
order, writes never overlap, and every write starts at least minDelay after
the completion of every earlier successful operation. -/
def QueueOrdered (a b : Attempt) : Prop :=
  a.opIdx ≤ b.opIdx ∧ a.finish ≤ b.start ∧
    (a.ok = true → a.finish + minDelay ≤ b.start)

/-! ### SMS alert state machine (alertManager.js) -/

/-- SMS_TRIGGER_DELAY: persistence delay before an SMS is attempted. -/
def SMS_TRIGGER_DELAY : Nat := 5000

/-- SMS_COOLDOWN: minimum spacing between SMS dispatches. -/
def SMS_COOLDOWN : Nat := 300000

/-- detectionState of AlertManager. -/
structure DetectionState where
  level : AlertLevel
  startTime : Option Nat
  duration : Nat
  smsTriggered : Bool
  lastSMSTime : Option Nat
  detectionCount : Nat
deriving DecidableEq, Repr

/-- The constructor's detection state. -/
def initialDetectionState : DetectionState :=
  ⟨AlertLevel.normal, none, 0, false, none, 0⟩

/-- AlertManager state: detection state plus the pending persistence timer
(alert level it was armed for and its fire time). -/
structure AlertManagerState where
  detection : DetectionState
  persistenceTimer : Option (AlertLevel × Nat)
deriving DecidableEq, Repr

/-- clearPersistenceTimer. -/
def clearPersistenceTimer (s : AlertManagerState) : AlertManagerState :=
  { s with persistenceTimer := none }

/-- resetDetectionState: back to normal, keeping lastSMSTime for cooldown. -/
def resetDetectionState (s : AlertManagerState) : AlertManagerState :=
  let s1 := clearPersistenceTimer s
  { s1 with detection :=
      ⟨AlertLevel.normal, none, 0, false, s.detection.lastSMSTime, 0⟩ }

/-- startPersistenceTimer: clear any pending timer and arm a fresh one for
`now + SMS_TRIGGER_DELAY`. -/
def startPersistenceTimer (s : AlertManagerState) (level : AlertLevel)
    (now : Nat) : AlertManagerState :=
  let s1 := clearPersistenceTimer s
  { s1 with persistenceTimer := some (level, now + SMS_TRIGGER_DELAY) }

/-- updateAlertLevel: on a level change clear the timer, reset on normal,
otherwise start a fresh detection episode and arm the timer; on a repeated
non-normal level only duration and the reading counter advance. -/
def updateAlertLevel (s : AlertManagerState) (newLevel : AlertLevel)
    (now : Nat) : AlertManagerState :=
  if newLevel ≠ s.detection.level then
    let s1 := clearPersistenceTimer s
    if newLevel = AlertLevel.normal then resetDetectionState s1
    else
      let s2 := { s1 with detection :=
        ⟨newLevel, some now, 0, false, s.detection.lastSMSTime, 1⟩ }
      startPersistenceTimer s2 newLevel now
  else if newLevel ≠ AlertLevel.normal then
    { s with detection := { s.detection with
        duration := now - s.detection.startTime.getD 0,
        detectionCount := s.detection.detectionCount + 1 } }
  else s

/-- The external collaborators consulted by triggerSMSAlert: whether the SMS
channel is configured, whether any contacts resolve for the level, and
whether the dispatch call succeeds. -/
structure SMSEnv where
  configured : Bool
  contactsAvailable : Bool
  dispatchOk : Bool
deriving DecidableEq, Repr

/-- triggerSMSAlert: the four skip guards in source order, then the dispatch;
returns the new state and whether an SMS was dispatched. -/
def triggerSMSAlert (s : AlertManagerState) (now : Nat) (env : SMSEnv) :
    AlertManagerState × Bool :=
  if s.detection.smsTriggered then (s, false)
  else if (match s.detection.lastSMSTime with
           | some t => decide (now - t < SMS_COOLDOWN)
           | none => false) then (s, false)
  else if ¬env.configured then (s, false)
  else if ¬env.contactsAvailable then (s, false)
  else if env.dispatchOk then
    ({ s with detection := { s.detection with
        smsTriggered := true, lastSMSTime := some now } }, true)
  else (s, false)

/-- The armed persistence timer firing: runs triggerSMSAlert at the armed
fire time (no pending timer means nothing happens). -/
def firePersistenceTimer (s : AlertManagerState) (env : SMSEnv) :
    AlertManagerState × Bool :=
  match s.persistenceTimer with
  | some (_, t) => triggerSMSAlert s t env
  | none => (s, false)

/-! ### GPS service (gpsAsync.js) -/

/-- Signal strength labels assigned by updateSignalStrength
(source strings: none / poor / fair / good / excellent). -/
inductive SignalStrength
  | noSignal
  | poor
  | fair
  | good
  | excellent
deriving DecidableEq, Repr

/-- JavaScript Math.round: floor(x + 1/2). -/
def jsRound (x : ℚ) : ℤ := ⌊x + 1/2⌋

/-- calculateAccuracy: hdop * 3 scaled by a satellite-count factor, rounded. -/
def calculateAccuracy (hdop : ℚ) (satellites : Nat) : ℤ :=
  let baseAccuracy := hdop * 3
  let adjusted :=
    if 8 ≤ satellites then baseAccuracy * (8/10)
    else if 6 ≤ satellites then baseAccuracy * 1
    else if 4 ≤ satellites then baseAccuracy * (15/10)
    else baseAccuracy * 2
  jsRound adjusted

/-- Truthiness-guarded upper-bound test on a possibly-null number:
`v && v < bound` in the source. -/
def truthyLtQ (o : Option ℚ) (bound : ℚ) : Bool :=
  match o with
  | none => false
  | some x => decide (x ≠ 0) && decide (x < bound)

/-- updateSignalStrength: buckets on fix quality, satellite count and hdop.
The truthiness test on hdop (a possibly-null number) is: present and
nonzero. -/
def updateSignalStrength (quality satellites : Nat) (hdop : Option ℚ) :
    SignalStrength :=
  if quality = 0 ∨ satellites < 3 then SignalStrength.noSignal
  else if 8 ≤ satellites ∧ truthyLtQ hdop 2 = true then SignalStrength.excellent
  else if 6 ≤ satellites ∧ truthyLtQ hdop 3 = true then SignalStrength.good
  else if 4 ≤ satellites ∧ truthyLtQ hdop 5 = true then SignalStrength.fair
  else SignalStrength.poor

/-- currentData of GPSAsync (the fields parseGGA reads and writes). -/
structure GPSData where
  latitude : Option ℚ
  longitude : Option ℚ
  altitude : Option ℚ
  hdop : Option ℚ
  accuracy : Option ℤ
  satellites : Nat
  fix : Bool
  fixQuality : Nat
  timestamp : Option Nat
deriving DecidableEq, Repr

/-- The constructor's currentData. -/
def initialGPSData : GPSData :=
  ⟨none, none, none, none, none, 0, false, 0, none⟩

/-- Truthiness-guarded upper-bound test on a possibly-null integer. -/
def truthyLtZ (o : Option ℤ) (bound : ℤ) : Bool :=
  match o with
  | none => false
  | some x => decide (x ≠ 0) && decide (x < bound)

/-- isGoodFix: fix flag, satellites >= 4, fixQuality >= 1, truthy hdop < 5,
truthy accuracy < 50. -/
def isGoodFix (d : GPSData) : Bool :=
  d.fix && decide (4 ≤ d.satellites) && decide (1 ≤ d.fixQuality)
    && truthyLtQ d.hdop 5 && truthyLtZ d.accuracy 50

/-- The persisted last known good location (the fields written by
updateLastKnownLocation, which are also exactly the persistence-file
fields). -/
structure LastKnown where
  latitude : ℚ
  longitude : ℚ
  altitude : Option ℚ
  accuracy : Option ℤ
  satellites : Nat
  hdop : Option ℚ
  signalStrength : SignalStrength
  timestamp : Nat
deriving DecidableEq, Repr

/-- updateLastKnownLocation: copy the current data into the last-known
record (at the single call site latitude/longitude are non-null, hence the
defaulted extraction). -/
def mkLastKnown (d : GPSData) (ss : SignalStrength) (t : Nat) : LastKnown :=
  ⟨d.latitude.getD 0, d.longitude.getD 0, d.altitude, d.accuracy,
    d.satellites, d.hdop, ss, t⟩

/-- The GPS state touched by parseGGA. -/
structure GPSState where
  currentData : GPSData
  lastKnownLocation : Option LastKnown
  signalStrength : SignalStrength
deriving DecidableEq, Repr

/-- The currentData update performed by parseGGA once latitude and longitude
decoded as non-null: hasFix = quality > 0 and satellites >= 3, and accuracy
is recomputed only when hdop is truthy.  parseGGAUpdate below finishes the
sentence handling: signal strength, and promotion to the last-known location
only when hasFix && isGoodFix(); null latitude or longitude leaves the state
unchanged. -/
def ggaCurrentData (cd : GPSData) (la lo : ℚ) (alt hdop : Option ℚ)
    (quality satellites t : Nat) : GPSData :=
  let hasFix := decide (0 < quality) && decide (3 ≤ satellites)
  let d1 : GPSData := { cd with
    latitude := some la, longitude := some lo, altitude := alt,
    hdop := hdop, satellites := satellites, fixQuality := quality,
    fix := hasFix, timestamp := some t }
  match hdop with
  | some h =>
    if h ≠ 0 then { d1 with accuracy := some (calculateAccuracy h satellites) }
    else d1
  | none => d1

/-- The promotion decision at the end of parseGGA. -/
def parseGGAUpdate (st : GPSState) (lat lon alt hdop : Option ℚ)
    (quality satellites t : Nat) : GPSState :=
  match lat, lon with
  | some la, some lo =>
    let d2 := ggaCurrentData st.currentData la lo alt hdop quality satellites t
    let ss := updateSignalStrength quality satellites hdop
    if (decide (0 < quality) && decide (3 ≤ satellites)) && isGoodFix d2 then
      ⟨d2, some (mkLastKnown d2 ss t), ss⟩
    else
      ⟨d2, st.lastKnownLocation, ss⟩
  | _, _ => st

/-- savePersistedLocation: writes the last-known record to the persistence
file (a no-op when there is none); serialization is lossless for these
fields. -/
def savePersistedLocation (lastKnown file : Option LastKnown) :
    Option LastKnown :=
  match lastKnown with
  | none => file
  | some rec => some rec

/-- loadPersistedLocation: parse the file and accept it only when latitude
and longitude are truthy (non-null and nonzero). -/
def loadPersistedLocation (file : Option LastKnown) : Option LastKnown :=
  match file with
  | none => none
  | some parsed =>
    if parsed.latitude ≠ 0 ∧ parsed.longitude ≠ 0 then some parsed else none

/-- getLocationAge's millisecond age of the cached location. -/
def locationAgeMs (now timestamp : ℤ) : ℤ := now - timestamp

/-- getLocationAge's derived second count (Math.floor of ms / 1000). -/
def locationAgeSeconds (now timestamp : ℤ) : ℤ :=
  ⌊(locationAgeMs now timestamp : ℚ) / 1000⌋

/-! ### GPS reconnect scheduling (gpsAsync.js) -/

/-- maxConnectionAttempts. -/
def maxConnectionAttempts : Nat := 10

/-- reconnectDelay: a fixed 5000 ms; nothing in the source ever changes it. -/
def reconnectDelay : Nat := 5000

/-- The connection-management state read by scheduleReconnect and
handleDisconnect. -/
structure GPSConnState where
  isShuttingDown : Bool
  reconnectTimerPending : Bool
  connectionAttempts : Nat
  isConnected : Bool
  fix : Bool
deriving DecidableEq, Repr

/-- scheduleReconnect: refuse when shutting down, when a timer is already
pending, or when connectionAttempts has reached the maximum; otherwise arm
a timer with the fixed reconnectDelay.  Returns the delay armed, if any. -/
def scheduleReconnect (s : GPSConnState) : GPSConnState × Option Nat :=
  if s.isShuttingDown ∨ s.reconnectTimerPending ∨
      maxConnectionAttempts ≤ s.connectionAttempts then (s, none)
  else ({ s with reconnectTimerPending := true }, some reconnectDelay)

/-- handleDisconnect: mark disconnected, invalidate the fix, drop the port
and schedule a reconnect. -/
def handleDisconnect (s : GPSConnState) : GPSConnState × Option Nat :=
  scheduleReconnect { s with isConnected := false, fix := false }

/-- connectToGPS increments connectionAttempts before probing devices; when
every candidate path fails the caller runs scheduleReconnect.  This is the
delay scheduled after the n-th consecutive failed connection attempt (no
timer pending, not shutting down). -/
def reconnectDelayAfterFailure (n : Nat) : Option Nat :=
  (scheduleReconnect ⟨false, false, n, false, false⟩).2

/-! ### Poll tick of readSensorData (hardwareManager.js) -/

/-- One channel sample as stored in this.sensorData (raw and ppm). -/
structure ChannelSample where
  raw : ℚ
  ppm : ℚ
deriving DecidableEq, Repr

/-- The outcome of one post-preheat poll tick. -/
structure TickResult where
  mq6Stored : ChannelSample
  mq2Stored : ChannelSample
  fused : FusedData
  level : AlertLevel
deriving DecidableEq, Repr

/-- The post-preheat body of readSensorData: each channel's read is tried;
on failure the local mqXData variable keeps its `{raw: 0, ppm: 0}`
initializer (which is what fusion and alert evaluation then consume) while
the stored this.sensorData snapshot keeps its previous value.  The tick
always proceeds to fusion and smart alert evaluation. -/
def readSensorTick (prevMq6 prevMq2 : ChannelSample)
    (mq6Read mq2Read : Option ChannelSample) : TickResult :=
  let mq6Data := match mq6Read with | some d => d | none => ⟨0, 0⟩
  let mq6Stored := match mq6Read with | some d => d | none => prevMq6
  let mq2Data := match mq2Read with | some d => d | none => ⟨0, 0⟩
  let mq2Stored := match mq2Read with | some d => d | none => prevMq2
  let fused := evaluateSensorData mq6Data.ppm mq2Data.ppm
  ⟨mq6Stored, mq2Stored, fused, determineSmartAlertLevel fused⟩

/-! ### Concrete instances used by the claim theorems -/

/-- Three operations on one pin, each succeeding in 50 ms. -/
def c2DemoOps : List GPIOOp :=
  [⟨1, fun _ => true, fun _ => 50, 2⟩,
   ⟨0, fun _ => true, fun _ => 50, 2⟩,
   ⟨1, fun _ => true, fun _ => 50, 2⟩]

/-- An operation whose delegated hardware write fails on every attempt. -/
def c4FailOp : GPIOOp := ⟨1, fun _ => false, fun _ => 10, 2⟩

/-- A fully available SMS environment: configured, contacts resolve,
dispatch succeeds. -/
def c3Env : SMSEnv := ⟨true, true, true⟩

/-- The alert-manager state at the start of the second critical episode of
the cooldown scenario: critical at t=0, SMS dispatched when the timer fires
at t=5000, normal at t=20000, critical again at t=60000 (timer armed for
t=65000). -/
def c3SecondEpisode : AlertManagerState :=
  updateAlertLevel
    (updateAlertLevel
      ((firePersistenceTimer
        (updateAlertLevel ⟨initialDetectionState, none⟩ AlertLevel.critical 0)
        c3Env).1)
      AlertLevel.normal 20000)
    AlertLevel.critical 60000

/-- A previously stored last-known location. -/
def c5Prior : LastKnown := ⟨14, 121, some 10, some 3, 6, some 1, SignalStrength.good, 500⟩

/-- A persisted location with nonzero latitude and longitude. -/
def c10GoodLoc : LastKnown := ⟨14, 121, some 10, some 3, 6, some 1, SignalStrength.good, 1000⟩

/-- A persisted location on the equator (latitude exactly 0). -/
def c10EquatorLoc : LastKnown := ⟨0, 121, some 10, some 3, 6, some 1, SignalStrength.good, 1000⟩

/-! ## Theorems

Shared lemmas first, then one theorem per claim (with witnesses and
counterexamples where the claim's status needs them). -/

/-- The wait at the top of the processQueue loop never moves time backwards. -/
theorem waitStart_ge_now (now lastOp : Nat) : now ≤ waitStart now lastOp := by
  simp only [waitStart, minDelay]
  split <;> omega

/-- An attempt never starts earlier than minDelay after the recorded end of
the previous successful operation. -/
theorem waitStart_ge_last (now lastOp : Nat) :
    lastOp + minDelay ≤ waitStart now lastOp := by
  simp only [waitStart, minDelay]
  split <;> omega

/-- The clock never moves backwards over a retry loop. -/
theorem runAttempts_now_le (op : GPIOOp) (opIdx : Nat) :
    ∀ remaining k now lastOp, now ≤ (runAttempts op opIdx remaining k now lastOp).now := by
  intro remaining
  induction remaining with
  | zero =>
    intro k now lastOp
    have h1 := waitStart_ge_now now lastOp
    simp only [runAttempts]
    split <;> simp <;> omega
  | succ r ih =>
    intro k now lastOp
    have h1 := waitStart_ge_now now lastOp
    have h2 := ih (k+1) (waitStart now lastOp + op.durations k + minDelay) lastOp
    simp only [runAttempts]
    split <;> simp <;> omega

/-- lastOperation only moves forward over a retry loop. -/
theorem runAttempts_last_mono (op : GPIOOp) (opIdx : Nat) :
    ∀ remaining k now lastOp,
      lastOp ≤ (runAttempts op opIdx remaining k now lastOp).lastOp := by
  intro remaining
  induction remaining with
  | zero =>
    intro k now lastOp
    have h1 := waitStart_ge_last now lastOp
    simp only [runAttempts]
    split <;> simp <;> omega
  | succ r ih =>
    intro k now lastOp
    have h1 := waitStart_ge_last now lastOp
    have h2 := ih (k+1) (waitStart now lastOp + op.durations k + minDelay) lastOp
    simp only [runAttempts]
    split <;> simp <;> omega

/-- lastOperation never runs ahead of the clock. -/
theorem runAttempts_last_le_now (op : GPIOOp) (opIdx : Nat) :
    ∀ remaining k now lastOp,
      (runAttempts op opIdx remaining k now lastOp).lastOp ≤
        (runAttempts op opIdx remaining k now lastOp).now := by
  intro remaining
  induction remaining with
  | zero =>
    intro k now lastOp
    have h1 := waitStart_ge_last now lastOp
    simp only [runAttempts]
    split <;> simp <;> omega
  | succ r ih =>
    intro k now lastOp
    have h2 := ih (k+1) (waitStart now lastOp + op.durations k + minDelay) lastOp
    simp only [runAttempts]
    split <;> simp <;> omega

/-- Bounds on every attempt in a single operation's retry trace: it starts
at least minDelay after the recorded previous-success end, not before the
current clock, finishes within the run, carries the operation's index, and a
successful attempt's finish is recorded in lastOperation. -/
theorem runAttempts_mem_spec (op : GPIOOp) (opIdx : Nat) :
    ∀ remaining k now lastOp,
      ∀ a ∈ (runAttempts op opIdx remaining k now lastOp).trace,
        lastOp + minDelay ≤ a.start ∧ now ≤ a.start ∧
        a.finish ≤ (runAttempts op opIdx remaining k now lastOp).now ∧
        a.start ≤ a.finish ∧ a.opIdx = opIdx ∧
        (a.ok = true → a.finish ≤ (runAttempts op opIdx remaining k now lastOp).lastOp) := by
  intro remaining
  induction remaining with
  | zero =>
    intro k now lastOp a ha
    have h1 := waitStart_ge_last now lastOp
    have h2 := waitStart_ge_now now lastOp
    simp only [runAttempts] at ha ⊢
    split at ha <;> simp_all <;> try omega
  | succ r ih =>
    intro k now lastOp a ha
    have h1 := waitStart_ge_last now lastOp
    have h2 := waitStart_ge_now now lastOp
    have h3 := runAttempts_now_le op opIdx r (k+1)
      (waitStart now lastOp + op.durations k + minDelay) lastOp
    have h4 := runAttempts_last_mono op opIdx r (k+1)
      (waitStart now lastOp + op.durations k + minDelay) lastOp
    simp only [runAttempts] at ha ⊢
    split at ha
    · simp_all
      try omega
    · simp only [List.mem_cons] at ha
      rcases ha with rfl | ha
      · simp_all
        try omega
      · have h5 := ih (k+1) (waitStart now lastOp + op.durations k + minDelay) lastOp a ha
        simp_all
        try omega

/-- Attempts within one operation's retry trace are ordered and spaced. -/
theorem runAttempts_pairwise (op : GPIOOp) (opIdx : Nat) :
    ∀ remaining k now lastOp,
      List.Pairwise QueueOrdered (runAttempts op opIdx remaining k now lastOp).trace := by
  intro remaining
  induction remaining with
  | zero =>
    intro k now lastOp
    simp only [runAttempts]
    split <;> simp
  | succ r ih =>
    intro k now lastOp
    simp only [runAttempts]
    split
    · simp
    · refine List.pairwise_cons.mpr ⟨?_, ih (k+1) _ lastOp⟩
      intro b hb
      have h5 := runAttempts_mem_spec op opIdx r (k+1)
        (waitStart now lastOp + op.durations k + minDelay) lastOp b hb
      refine ⟨?_, ?_, ?_⟩
      · simp [h5.2.2.2.2.1]
      · simp only
        omega
      · intro hok
        simp at hok

/-- The clock never moves backwards over a queue drain. -/
theorem processOps_now_le (ops : List GPIOOp) :
    ∀ opIdx now lastOp, now ≤ (processOps ops opIdx now lastOp).now := by
  induction ops with
  | nil => intro opIdx now lastOp; simp [processOps]
  | cons op rest ih =>
    intro opIdx now lastOp
    have h1 := runAttempts_now_le op opIdx (op.maxRetries - 1) 0 now lastOp
    have h2 := ih (opIdx + 1) (processOp op opIdx now lastOp).now
      (processOp op opIdx now lastOp).lastOp
    simp only [processOps, processOp] at h1 h2 ⊢
    omega

/-- lastOperation only moves forward over a queue drain. -/
theorem processOps_last_mono (ops : List GPIOOp) :
    ∀ opIdx now lastOp, lastOp ≤ (processOps ops opIdx now lastOp).lastOp := by
  induction ops with
  | nil => intro opIdx now lastOp; simp [processOps]
  | cons op rest ih =>
    intro opIdx now lastOp
    have h1 := runAttempts_last_mono op opIdx (op.maxRetries - 1) 0 now lastOp
    have h2 := ih (opIdx + 1) (processOp op opIdx now lastOp).now
      (processOp op opIdx now lastOp).lastOp
    simp only [processOps, processOp] at h1 h2 ⊢
    omega

/-- Bounds on every attempt in a queue drain's trace. -/
theorem processOps_mem_spec (ops : List GPIOOp) :
    ∀ opIdx now lastOp,
      ∀ a ∈ (processOps ops opIdx now lastOp).trace,
        lastOp + minDelay ≤ a.start ∧ now ≤ a.start ∧
        a.finish ≤ (processOps ops opIdx now lastOp).now ∧
        opIdx ≤ a.opIdx ∧
        (a.ok = true → a.finish ≤ (processOps ops opIdx now lastOp).lastOp) := by
  induction ops with
  | nil => intro opIdx now lastOp a ha; simp [processOps] at ha
  | cons op rest ih =>
    intro opIdx now lastOp a ha
    simp only [processOps, List.mem_append] at ha
    rcases ha with ha | ha
    · have h5 := runAttempts_mem_spec op opIdx (op.maxRetries - 1) 0 now lastOp a
        (by simpa [processOp] using ha)
      have h6 := processOps_now_le rest (opIdx + 1) (processOp op opIdx now lastOp).now
        (processOp op opIdx now lastOp).lastOp
      have h7 := processOps_last_mono rest (opIdx + 1) (processOp op opIdx now lastOp).now
        (processOp op opIdx now lastOp).lastOp
      simp only [processOps, processOp] at h5 h6 h7 ⊢
      refine ⟨h5.1, h5.2.1, by omega, le_of_eq h5.2.2.2.2.1.symm, fun hok => ?_⟩
      have := h5.2.2.2.2.2 hok
      omega
    · have h5 := ih (opIdx + 1) (processOp op opIdx now lastOp).now
        (processOp op opIdx now lastOp).lastOp a ha
      have h1 := runAttempts_now_le op opIdx (op.maxRetries - 1) 0 now lastOp
      have h2 := runAttempts_last_mono op opIdx (op.maxRetries - 1) 0 now lastOp
      have h3 := runAttempts_last_le_now op opIdx (op.maxRetries - 1) 0 now lastOp
      simp only [processOps, processOp] at h5 h1 h2 h3 ⊢
      refine ⟨by omega, by omega, by omega, by omega, fun hok => ?_⟩
      have := h5.2.2.2.2 hok
      omega

/-- A queue drain's whole trace is ordered and spaced. -/
theorem processOps_pairwise (ops : List GPIOOp) :
    ∀ opIdx now lastOp,
      List.Pairwise QueueOrdered (processOps ops opIdx now lastOp).trace := by
  induction ops with
  | nil => intro opIdx now lastOp; simp [processOps]
  | cons op rest ih =>
    intro opIdx now lastOp
    simp only [processOps]
    refine List.pairwise_append.mpr ⟨?_, ?_, ?_⟩
    · simpa [processOp] using runAttempts_pairwise op opIdx (op.maxRetries - 1) 0 now lastOp
    · exact ih (opIdx + 1) _ _
    · intro a ha b hb
      have h5 := runAttempts_mem_spec op opIdx (op.maxRetries - 1) 0 now lastOp a
        (by simpa [processOp] using ha)
      have h6 := processOps_mem_spec rest (opIdx + 1) (processOp op opIdx now lastOp).now
        (processOp op opIdx now lastOp).lastOp b hb
      simp only [processOp] at h5 h6
      refine ⟨by omega, by omega, fun hok => ?_⟩
      have := h5.2.2.2.2.2 hok
      omega

/-- Each enqueued operation produces exactly one resolution, front to back. -/
theorem processOps_res_length (ops : List GPIOOp) :
    ∀ opIdx now lastOp,
      (processOps ops opIdx now lastOp).resolutions.length = ops.length := by
  induction ops with
  | nil => intro opIdx now lastOp; simp [processOps]
  | cons op rest ih =>
    intro opIdx now lastOp
    simp only [processOps, List.length_cons]
    rw [ih]

/-! ### Claim C1 (corrected) -/

/-- With both channel readings at least 20 and within a factor 3/2 (resp. 2)
of each other, detectGasType classifies LPG/Propane. -/
theorem detectGasType_propane (p q : ℚ) (hp : 20 < p) (hq : 20 < q)
    (h1 : p ≤ 3/2 * q) (h2 : q ≤ 2 * p) :
    detectGasType p q = GasType.LPGPropane := by
  have hq0 : (0:ℚ) < q := by linarith
  have hp0 : (0:ℚ) < p := by linarith
  have hmq : max q 1 = q := max_eq_left (by linarith)
  have hmp : max p 1 = p := max_eq_left (by linarith)
  have hA : ¬(p / max q 1 > 3/2 ∧ p > 50) := by
    rintro ⟨hr, -⟩
    rw [hmq, gt_iff_lt, lt_div_iff₀ hq0] at hr
    linarith
  have hB : ¬(q / max p 1 > 2 ∧ q > 30) := by
    rintro ⟨hr, -⟩
    rw [hmp, gt_iff_lt, lt_div_iff₀ hp0] at hr
    linarith
  simp only [detectGasType]
  rw [if_neg hA, if_neg hB, if_pos ⟨hp, hq⟩]

/-- assessRisk yields MEDIUM exactly on the (150, 300] band of the weighted
ppm. -/
theorem assessRisk_medium (p q : ℚ) (g : GasType)
    (hle : max p q * riskMultiplier g ≤ 300)
    (hgt : 150 < max p q * riskMultiplier g) :
    assessRisk p q g = RiskLevel.MEDIUM := by
  simp only [assessRisk]
  rw [if_neg (not_lt.mpr hle), if_pos hgt]

/-- calculateConfidence exceeds 50 whenever the smaller reading is at least
100, the larger exceeds 100, and the agreement fraction is at least 2/5. -/
theorem confidence_gt_50 (p q : ℚ) (hm : 100 ≤ min p q) (hM : 100 < max p q)
    (hr : 2/5 ≤ min p q / max p q) : 50 < calculateConfidence p q := by
  simp only [calculateConfidence]
  have h5 : min p q > 5 ∧ max p q > 0 := ⟨by linarith, by linarith⟩
  rw [if_pos hM, if_pos h5]
  have h30 : (2:ℚ)/5 * 30 ≤ min p q / max p q * 30 :=
    mul_le_mul_of_nonneg_right hr (by norm_num)
  by_cases h200 : max p q > 200
  · rw [if_pos h200]
    rw [lt_min_iff]
    exact ⟨by norm_num, lt_max_iff.mpr (Or.inr (by linarith))⟩
  · rw [if_neg h200]
    rw [lt_min_iff]
    exact ⟨by norm_num, lt_max_iff.mpr (Or.inr (by linarith))⟩

/-- A fused assessment with MEDIUM risk and confidence above 50 lands in the
second branch of determineSmartAlertLevel: the level is low. -/
theorem smartLevel_low_of_medium (f : FusedData)
    (hrk : f.riskLevel = RiskLevel.MEDIUM) (hc : 50 < f.confidence) :
    determineSmartAlertLevel f = AlertLevel.low := by
  simp only [determineSmartAlertLevel]
  rw [if_neg, if_pos ⟨hc, hrk⟩]
  rintro ⟨-, h⟩
  rw [hrk] at h
  exact absurd h (by decide)

/-- Claim C1 (amended): with maxPpm = 150 and agreement GOOD (both channels
in [100, 150]) the smart alert level is low, as the claim states; but with
maxPpm = 250 and agreement EXCELLENT (both channels in (200, 250]) the level
is ALSO low, not critical: the gas type is LPG/Propane, so the risk
250 * 1.1 = 275 is MEDIUM and the confidence is at least 84, and the
confidence>50/risk=MEDIUM branch precedes the maxPpm>200/EXCELLENT branch. -/
theorem C1_smart_levels :
    (∀ p q : ℚ, 100 ≤ p → p ≤ 150 → 100 ≤ q → q ≤ 150 → max p q = 150 →
      analyzeSensorAgreement p q = Agreement.GOOD →
      determineSmartAlertLevel (evaluateSensorData p q) = AlertLevel.low) ∧
    (∀ p q : ℚ, 200 < p → p ≤ 250 → 200 < q → q ≤ 250 → max p q = 250 →
      analyzeSensorAgreement p q = Agreement.EXCELLENT →
      determineSmartAlertLevel (evaluateSensorData p q) = AlertLevel.low) := by
  constructor
  · intro p q hp1 hp2 hq1 hq2 hmax hag
    have hmin : 100 ≤ min p q := le_min hp1 hq1
    have hg : detectGasType p q = GasType.LPGPropane :=
      detectGasType_propane p q (by linarith) (by linarith) (by linarith) (by linarith)
    have hrk : assessRisk p q (detectGasType p q) = RiskLevel.MEDIUM := by
      rw [hg]
      exact assessRisk_medium p q GasType.LPGPropane
        (by rw [hmax]; norm_num [riskMultiplier])
        (by rw [hmax]; norm_num [riskMultiplier])
    have hc : 50 < calculateConfidence p q := by
      refine confidence_gt_50 p q hmin (by rw [hmax]; norm_num) ?_
      rw [hmax, le_div_iff₀ (by norm_num : (0:ℚ) < 150)]
      linarith
    exact smartLevel_low_of_medium (evaluateSensorData p q) hrk hc
  · intro p q hp1 hp2 hq1 hq2 hmax hag
    have hmin : 100 ≤ min p q := le_min (by linarith) (by linarith)
    have hg : detectGasType p q = GasType.LPGPropane :=
      detectGasType_propane p q (by linarith) (by linarith) (by linarith) (by linarith)
    have hrk : assessRisk p q (detectGasType p q) = RiskLevel.MEDIUM := by
      rw [hg]
      exact assessRisk_medium p q GasType.LPGPropane
        (by rw [hmax]; norm_num [riskMultiplier])
        (by rw [hmax]; norm_num [riskMultiplier])
    have hc : 50 < calculateConfidence p q := by
      refine confidence_gt_50 p q hmin (by rw [hmax]; norm_num) ?_
      rw [hmax, le_div_iff₀ (by norm_num : (0:ℚ) < 250)]
      linarith
    exact smartLevel_low_of_medium (evaluateSensorData p q) hrk hc

/-- Claim C1 counterexample: readings 250 and 210 ppm give maxPpm = 250 and
agreement EXCELLENT, yet the computed level is low, not critical. -/
theorem C1_counterexample :
    (evaluateSensorData 250 210).maxPpm = 250 ∧
    (evaluateSensorData 250 210).agreement = Agreement.EXCELLENT ∧
    determineSmartAlertLevel (evaluateSensorData 250 210) = AlertLevel.low ∧
    AlertLevel.low ≠ AlertLevel.critical := by
  refine ⟨by norm_num [evaluateSensorData],
    by norm_num [evaluateSensorData, analyzeSensorAgreement], ?_, by decide⟩
  simp only [determineSmartAlertLevel, evaluateSensorData, calculateConfidence,
    detectGasType, assessRisk, analyzeSensorAgreement, riskMultiplier]
  norm_num
  exact fun h => nomatch h

/-- Claim C1 witness: both halves of the amended claim applied at concrete
readings (100, 150) with agreement GOOD and (250, 210) with EXCELLENT. -/
theorem C1_witness :
    ((100:ℚ) ≤ 100 ∧ (100:ℚ) ≤ 150 ∧ max (100:ℚ) 150 = 150 ∧
      analyzeSensorAgreement 100 150 = Agreement.GOOD ∧
      determineSmartAlertLevel (evaluateSensorData 100 150) = AlertLevel.low) ∧
    ((200:ℚ) < 250 ∧ (200:ℚ) < 210 ∧ max (250:ℚ) 210 = 250 ∧
      analyzeSensorAgreement 250 210 = Agreement.EXCELLENT ∧
      determineSmartAlertLevel (evaluateSensorData 250 210) = AlertLevel.low) := by
  have hg1 : analyzeSensorAgreement 100 150 = Agreement.GOOD := by
    norm_num [analyzeSensorAgreement]
  have hg2 : analyzeSensorAgreement (250:ℚ) 210 = Agreement.EXCELLENT := by
    norm_num [analyzeSensorAgreement]
  refine ⟨⟨by norm_num, by norm_num, by norm_num, hg1, ?_⟩,
          ⟨by norm_num, by norm_num, by norm_num, hg2, ?_⟩⟩
  · exact C1_smart_levels.1 100 150 (by norm_num) (by norm_num) (by norm_num)
      (by norm_num) (by norm_num) hg1
  · exact C1_smart_levels.2 250 210 (by norm_num) (by norm_num) (by norm_num)
      (by norm_num) (by norm_num) hg2

/-! ### Claim C2 (confirmed) -/

/-- Claim C2: draining a pin's FIFO executes operations in submission order
with non-overlapping writes, every write starting at least minDelay (100 ms)
after the completion of every earlier successful operation on that pin, and
one resolution per enqueued operation in order; in particular three
operations enqueued on one pin complete in submission order at times
100050, 100200, 100350 — each at least 100 ms after the previous
completion. -/
theorem C2_fifo_spacing :
    (∀ (ops : List GPIOOp) (now lastOp : Nat),
        List.Pairwise QueueOrdered (processOps ops 0 now lastOp).trace ∧
        (processOps ops 0 now lastOp).resolutions.length = ops.length) ∧
    (processOps c2DemoOps 0 100000 0).trace.map
        (fun a => (a.opIdx, a.start, a.finish, a.ok)) =
      [(0, 100000, 100050, true), (1, 100150, 100200, true), (2, 100300, 100350, true)] :=
  ⟨fun ops now lastOp =>
    ⟨processOps_pairwise ops 0 now lastOp, processOps_res_length ops 0 now lastOp⟩,
   rfl⟩

/-- Claim C2 witness: the FIFO ordering theorem applied to the concrete
three-operation queue. -/
theorem C2_witness :
    List.Pairwise QueueOrdered (processOps c2DemoOps 0 100000 0).trace ∧
    (processOps c2DemoOps 0 100000 0).resolutions.length = 3 :=
  ⟨(C2_fifo_spacing.1 c2DemoOps 100000 0).1,
   (C2_fifo_spacing.1 c2DemoOps 100000 0).2⟩

/-! ### Claim C3 (confirmed) -/

/-- Claim C3: when the persistence timer fires within SMS_COOLDOWN of the
stored lastSMSTime for an episode that has not yet dispatched, the gate
skips the dispatch and leaves the state (including smsTriggered = false)
unchanged. -/
theorem C3_cooldown_skip (s : AlertManagerState) (t now : Nat) (env : SMSEnv)
    (h1 : s.detection.smsTriggered = false)
    (h2 : s.detection.lastSMSTime = some t)
    (h3 : now - t < SMS_COOLDOWN) :
    triggerSMSAlert s now env = (s, false) := by
  simp [triggerSMSAlert, h1, h2, h3]

/-- Claim C3 witness: two critical episodes 60000 ms apart.  After the first
episode dispatched at t=5000 and the level returned to normal (preserving
lastSMSTime), the second episode's timer is armed for t=65000 and its firing
dispatches nothing, leaving smsTriggered false. -/
theorem C3_witness :
    c3SecondEpisode.detection.smsTriggered = false ∧
    c3SecondEpisode.detection.lastSMSTime = some 5000 ∧
    c3SecondEpisode.persistenceTimer = some (AlertLevel.critical, 65000) ∧
    65000 - 5000 < SMS_COOLDOWN ∧
    triggerSMSAlert c3SecondEpisode 65000 c3Env = (c3SecondEpisode, false) :=
  ⟨by decide, by decide, by decide, by decide,
   C3_cooldown_skip c3SecondEpisode 5000 65000 c3Env (by decide) (by decide) (by decide)⟩

/-! ### Claim C4 (code bug) -/

/-- Claim C4: an operation whose delegated hardware write fails on every
attempt is attempted only twice (attempt indices 0 and 1) before its promise
is rejected, although maxRetries = 2 — the source increments the retry
counter before comparing it with maxRetries, so only one retry happens and
the promised 2-retries/3-attempts budget is never reached. -/
theorem C4_two_attempts_only :
    c4FailOp.maxRetries = 2 ∧
    (processOp c4FailOp 0 1000 0).trace.map (fun a => a.attempt) = [0, 1] ∧
    (processOp c4FailOp 0 1000 0).trace.length = 2 ∧
    (processOp c4FailOp 0 1000 0).resolved = false :=
  ⟨rfl, rfl, rfl, rfl⟩

/-! ### Claim C5 (confirmed) -/

/-- Unfolding the good-fix gate: a passing currentData has the fix flag set,
at least 4 satellites, fix quality at least 1, an hdop below 5 and a
computed accuracy below 50 m. -/
theorem isGoodFix_spec (d : GPSData) (h : isGoodFix d = true) :
    d.fix = true ∧ 4 ≤ d.satellites ∧ 1 ≤ d.fixQuality ∧
    (∃ x, d.hdop = some x ∧ x < 5) ∧ (∃ a, d.accuracy = some a ∧ a < 50) := by
  rcases hh : d.hdop with _ | x <;> rcases ha : d.accuracy with _ | a <;>
    simp only [isGoodFix, truthyLtQ, truthyLtZ, hh, ha, Bool.and_eq_true,
      decide_eq_true_eq] at h
  · simp at h
  · simp at h
  · simp at h
  · exact ⟨h.1.1.1.1, h.1.1.1.2, h.1.1.2, ⟨x, rfl, h.1.2.2⟩, ⟨a, rfl, h.2.2⟩⟩

/-- Claim C5: a decoded position is promoted to the last-known location only
if it passes the good-fix gate (fix flag, satellites >= 4, fix quality >= 1,
hdop < 5, accuracy < 50); and at the concrete candidate with satellites = 3,
hdop = 1.0 and fixQuality = 1 the stored last-known location is unchanged. -/
theorem C5_good_fix_gate :
    (∀ (st : GPSState) (lat lon alt hdop : Option ℚ) (quality satellites t : Nat),
      (parseGGAUpdate st lat lon alt hdop quality satellites t).lastKnownLocation ≠
        st.lastKnownLocation →
      ((parseGGAUpdate st lat lon alt hdop quality satellites t).currentData.fix = true ∧
       4 ≤ (parseGGAUpdate st lat lon alt hdop quality satellites t).currentData.satellites ∧
       1 ≤ (parseGGAUpdate st lat lon alt hdop quality satellites t).currentData.fixQuality ∧
       (∃ x, (parseGGAUpdate st lat lon alt hdop quality satellites t).currentData.hdop =
          some x ∧ x < 5) ∧
       (∃ a, (parseGGAUpdate st lat lon alt hdop quality satellites t).currentData.accuracy =
          some a ∧ a < 50))) ∧
    (parseGGAUpdate ⟨initialGPSData, some c5Prior, SignalStrength.noSignal⟩
        (some 14) (some 121) (some 10) (some 1) 1 3 777).lastKnownLocation =
      some c5Prior := by
  constructor
  · intro st lat lon alt hdop quality satellites t hne
    cases lat with
    | none => simp [parseGGAUpdate] at hne
    | some la =>
      cases lon with
      | none => simp [parseGGAUpdate] at hne
      | some lo =>
        simp only [parseGGAUpdate] at hne ⊢
        by_cases hc : ((decide (0 < quality) && decide (3 ≤ satellites)) &&
            isGoodFix (ggaCurrentData st.currentData la lo alt hdop quality satellites t)) = true
        · rw [if_pos hc] at hne ⊢
          rw [Bool.and_eq_true] at hc
          exact isGoodFix_spec _ hc.2
        · rw [if_neg hc] at hne
          exact absurd rfl hne
  · simp [parseGGAUpdate, ggaCurrentData, isGoodFix, truthyLtQ, truthyLtZ]

/-- Claim C5 witness: a promoting candidate (quality 1, 6 satellites,
hdop 1) changes the last-known location, and the gate theorem yields all
five gate conditions for it. -/
theorem C5_witness :
    ((parseGGAUpdate ⟨initialGPSData, none, SignalStrength.noSignal⟩
        (some 14) (some 121) (some 10) (some 1) 1 6 777).lastKnownLocation ≠
      (⟨initialGPSData, none, SignalStrength.noSignal⟩ : GPSState).lastKnownLocation) ∧
    ((parseGGAUpdate ⟨initialGPSData, none, SignalStrength.noSignal⟩
        (some 14) (some 121) (some 10) (some 1) 1 6 777).currentData.fix = true ∧
     4 ≤ (parseGGAUpdate ⟨initialGPSData, none, SignalStrength.noSignal⟩
        (some 14) (some 121) (some 10) (some 1) 1 6 777).currentData.satellites ∧
     1 ≤ (parseGGAUpdate ⟨initialGPSData, none, SignalStrength.noSignal⟩
        (some 14) (some 121) (some 10) (some 1) 1 6 777).currentData.fixQuality ∧
     (∃ x, (parseGGAUpdate ⟨initialGPSData, none, SignalStrength.noSignal⟩
        (some 14) (some 121) (some 10) (some 1) 1 6 777).currentData.hdop =
          some x ∧ x < 5) ∧
     (∃ a, (parseGGAUpdate ⟨initialGPSData, none, SignalStrength.noSignal⟩
        (some 14) (some 121) (some 10) (some 1) 1 6 777).currentData.accuracy =
          some a ∧ a < 50)) := by
  have hne : (parseGGAUpdate ⟨initialGPSData, none, SignalStrength.noSignal⟩
        (some 14) (some 121) (some 10) (some 1) 1 6 777).lastKnownLocation ≠
      (⟨initialGPSData, none, SignalStrength.noSignal⟩ : GPSState).lastKnownLocation := by
    norm_num [parseGGAUpdate, ggaCurrentData, isGoodFix, truthyLtQ, truthyLtZ,
      calculateAccuracy, jsRound, initialGPSData]
    exact Option.some_ne_none _
  exact ⟨hne, C5_good_fix_gate.1 _ _ _ _ _ _ _ _ hne⟩

/-! ### Claim C6 (corrected) -/

/-- Claim C6 counterexample: the delay scheduled after the second failed
connection attempt equals the one after the first (both 5000 ms); it is not
doubled as exponential backoff would require. -/
theorem C6_counterexample :
    reconnectDelayAfterFailure 1 = some 5000 ∧
    reconnectDelayAfterFailure 2 = some 5000 ∧
    reconnectDelayAfterFailure 2 ≠
      Option.map (fun d => 2 * d) (reconnectDelayAfterFailure 1) := by
  refine ⟨by decide, by decide, by decide⟩

/-- Claim C6 (amended): after a transport error or close the service marks
itself disconnected (fix invalidated) and schedules reconnect attempts with
a CONSTANT 5000 ms delay — there is no exponential backoff — and stops
scheduling once connectionAttempts reaches the maximum of 10, until
explicitly restarted. -/
theorem C6_constant_delay :
    (∀ s : GPSConnState, (handleDisconnect s).1.isConnected = false ∧
      (handleDisconnect s).1.fix = false) ∧
    (∀ n : Nat, n < maxConnectionAttempts →
      reconnectDelayAfterFailure n = some reconnectDelay) ∧
    (∀ n : Nat, maxConnectionAttempts ≤ n → reconnectDelayAfterFailure n = none) := by
  refine ⟨?_, ?_, ?_⟩
  · intro s
    simp only [handleDisconnect, scheduleReconnect]
    split <;> simp
  · intro n hn
    simp only [reconnectDelayAfterFailure, scheduleReconnect]
    rw [if_neg]
    simp [maxConnectionAttempts] at hn ⊢
    omega
  · intro n hn
    simp only [reconnectDelayAfterFailure, scheduleReconnect]
    rw [if_pos (Or.inr (Or.inr hn))]

/-- Claim C6 witness: the constant-delay theorem applied after the 3rd and
10th failed attempts and to a concrete disconnect. -/
theorem C6_witness :
    ((3:Nat) < maxConnectionAttempts ∧ reconnectDelayAfterFailure 3 = some reconnectDelay) ∧
    (maxConnectionAttempts ≤ (10:Nat) ∧ reconnectDelayAfterFailure 10 = none) ∧
    ((handleDisconnect ⟨false, false, 2, true, true⟩).1.isConnected = false ∧
     (handleDisconnect ⟨false, false, 2, true, true⟩).1.fix = false) :=
  ⟨⟨by decide, C6_constant_delay.2.1 3 (by decide)⟩,
   ⟨by decide, C6_constant_delay.2.2 10 (by decide)⟩,
   C6_constant_delay.1 ⟨false, false, 2, true, true⟩⟩

/-! ### Claims C7 and C9: the conversion curve -/

/-- calculatePPM never reports a negative concentration. -/
theorem calculatePPM_nonneg (t : SensorKind) (r ro : ℝ) :
    0 ≤ calculatePPM t r ro := by
  unfold calculatePPM
  split
  · exact le_rfl
  · split
    · exact le_rfl
    · exact le_max_left 0 _

/-- The power curve is positive on positive ratios. -/
theorem curvePpm_pos (t : SensorKind) {x : ℝ} (hx : 0 < x) : 0 < curvePpm t x := by
  cases t <;> simp only [curvePpm] <;>
    exact div_pos (by norm_num) (Real.rpow_pos_of_pos hx _)

/-- The power curve a / q^b is antitone in the ratio q on positive inputs. -/
theorem curvePpm_anti (t : SensorKind) {x y : ℝ} (hx : 0 < x) (hxy : x ≤ y) :
    curvePpm t y ≤ curvePpm t x := by
  have hx' : (0:ℝ) ≤ x := hx.le
  cases t <;> simp only [curvePpm]
  · have hpow : x ^ ((5:ℝ)/2) ≤ y ^ ((5:ℝ)/2) :=
      Real.rpow_le_rpow hx' hxy (by norm_num)
    have hxp : 0 < x ^ ((5:ℝ)/2) := Real.rpow_pos_of_pos hx _
    exact div_le_div_of_nonneg_left (by norm_num) hxp hpow
  · have hpow : x ^ ((11:ℝ)/5) ≤ y ^ ((11:ℝ)/5) :=
      Real.rpow_le_rpow hx' hxy (by norm_num)
    have hxp : 0 < x ^ ((11:ℝ)/5) := Real.rpow_pos_of_pos hx _
    exact div_le_div_of_nonneg_left (by norm_num) hxp hpow

/-- Claim C9: for 100 <= R1 <= R2 <= 1e6 and a positive baseline Ro, the
converted concentration is monotonically non-increasing in the resistance:
calculatePPM at R2 is at most calculatePPM at R1, for either channel
type. -/
theorem C9_ppm_antitone (t : SensorKind) (ro R1 R2 : ℝ) (hro : 0 < ro)
    (h1 : 100 ≤ R1) (h12 : R1 ≤ R2) (h2 : R2 ≤ 1000000) :
    calculatePPM t R2 ro ≤ calculatePPM t R1 ro := by
  by_cases htop : (1000000 : ℝ) ≤ R2
  · have hz : calculatePPM t R2 ro = 0 := by
      unfold calculatePPM
      rw [if_pos (Or.inr htop)]
    rw [hz]
    exact calculatePPM_nonneg t R1 ro
  · push_neg at htop
    have hR1pos : (0:ℝ) < R1 := by linarith
    have hR2pos : (0:ℝ) < R2 := by linarith
    have hq1 : 0 < R1 / ro := div_pos hR1pos hro
    have hq2 : 0 < R2 / ro := div_pos hR2pos hro
    unfold calculatePPM
    rw [if_neg (by push_neg; exact ⟨by linarith, by linarith⟩),
        if_neg (not_le.mpr hq2),
        if_neg (by push_neg; exact ⟨by linarith, by linarith⟩),
        if_neg (not_le.mpr hq1)]
    have hc : curvePpm t (R2/ro) ≤ curvePpm t (R1/ro) :=
      curvePpm_anti t hq1 (by gcongr)
    exact max_le_max le_rfl (min_le_min le_rfl hc)

/-- Claim C9 witness: the antitonicity theorem applied to resistances 200
and 400 ohms with the default baseline of 5000 ohms. -/
theorem C9_witness :
    ((0:ℝ) < 5000 ∧ (100:ℝ) ≤ 200 ∧ (200:ℝ) ≤ 400 ∧ (400:ℝ) ≤ 1000000) ∧
    calculatePPM SensorKind.mq6 400 5000 ≤ calculatePPM SensorKind.mq6 200 5000 :=
  ⟨⟨by norm_num, by norm_num, by norm_num, by norm_num⟩,
   C9_ppm_antitone SensorKind.mq6 5000 200 400 (by norm_num) (by norm_num)
     (by norm_num) (by norm_num)⟩

/-- Evaluating the real power: (1/4)^(5/2) = 1/32. -/
theorem quarter_rpow : ((1/4 : ℝ)) ^ ((5:ℝ)/2) = 1/32 := by
  have h4 : ((1/4 : ℝ)) = (1/2 : ℝ) ^ ((2:ℕ) : ℝ) := by
    rw [Real.rpow_natCast]
    norm_num
  rw [h4, ← Real.rpow_mul (by norm_num : (0:ℝ) ≤ 1/2)]
  have h5 : ((2:ℕ) : ℝ) * ((5:ℝ)/2) = ((5:ℕ) : ℝ) := by norm_num
  rw [h5, Real.rpow_natCast]
  norm_num

/-- The MQ6 curve value at ratio 1250/5000 = 1/4 is 32000 ppm, well above
the clamp. -/
theorem curve_at_quarter : curvePpm SensorKind.mq6 ((1250:ℝ)/5000) = 32000 := by
  have h : (1250:ℝ)/5000 = 1/4 := by norm_num
  rw [h]
  simp only [curvePpm]
  rw [quarter_rpow]
  norm_num

/-- Claim C7 (amended): for a post-preheat read in the valid resistance
range, the reported concentration is the curve value clamped to [0, 10000]
FIRST and then scaled by the sensitivity factor; in particular for curve
values at or above 10000 the reported concentration is 10000 times the
sensitivity (3000 ppm), not min(curve * sensitivity, 10000). -/
theorem C7_clamp_before_scaling (t : SensorKind) (R ro : ℝ)
    (hR : 0 < R) (hRtop : R < 1000000) (hro : 0 < ro) :
    readPpm t R ro = min 10000 (curvePpm t (R / ro)) * sensorSensitivity t ∧
    (10000 ≤ curvePpm t (R / ro) →
      readPpm t R ro = 10000 * sensorSensitivity t) := by
  have hq : 0 < R / ro := div_pos hR hro
  have hcpos : 0 < curvePpm t (R / ro) := curvePpm_pos t hq
  have hcalc : calculatePPM t R ro = min 10000 (curvePpm t (R / ro)) := by
    unfold calculatePPM
    rw [if_neg (by push_neg; exact ⟨hR, by linarith⟩), if_neg (not_le.mpr hq)]
    exact max_eq_right (le_min (by norm_num) hcpos.le)
  have hmin_pos : 0 < min 10000 (curvePpm t (R / ro)) :=
    lt_min (by norm_num) hcpos
  have hsens : (0:ℝ) < sensorSensitivity t := by
    cases t <;> norm_num [sensorSensitivity]
  constructor
  · unfold readPpm applySensorCorrections
    rw [hcalc, mul_one]
    exact max_eq_right (by positivity)
  · intro hbig
    unfold readPpm applySensorCorrections
    rw [hcalc, mul_one, min_eq_left hbig]
    exact max_eq_right (by positivity)

/-- Claim C7 counterexample: at resistance 1250 with baseline 5000 the MQ6
curve value is 32000, so the source pipeline reports
min(32000, 10000) * 0.3 = 3000 ppm while the claimed scale-then-clamp order
would report min(32000 * 0.3, 10000) = 9600 ppm. -/
theorem C7_counterexample :
    readPpm SensorKind.mq6 1250 5000 = 3000 ∧
    specClaimedReadPpm SensorKind.mq6 1250 5000 = 9600 ∧
    (3000:ℝ) ≠ 9600 := by
  refine ⟨?_, ?_, by norm_num⟩
  · unfold readPpm applySensorCorrections calculatePPM sensorSensitivity
    rw [if_neg (by norm_num), if_neg (by norm_num)]
    rw [curve_at_quarter]
    rw [min_eq_left (by norm_num : (10000:ℝ) ≤ 32000)]
    rw [max_eq_right (by norm_num : (0:ℝ) ≤ 10000)]
    norm_num
  · unfold specClaimedReadPpm sensorSensitivity
    rw [curve_at_quarter]
    rw [min_eq_right (by norm_num : (32000:ℝ) * (3/10) ≤ 10000)]
    rw [max_eq_right (by norm_num : (0:ℝ) ≤ 32000 * (3/10))]
    norm_num

/-- Claim C7 witness: the clamp-before-scaling theorem applied at
resistance 1250, baseline 5000, where the curve value 32000 exceeds the
clamp and the reported concentration is 10000 * 0.3. -/
theorem C7_witness :
    ((0:ℝ) < 1250 ∧ (1250:ℝ) < 1000000 ∧ (0:ℝ) < 5000 ∧
      10000 ≤ curvePpm SensorKind.mq6 ((1250:ℝ) / 5000)) ∧
    readPpm SensorKind.mq6 1250 5000 =
      min 10000 (curvePpm SensorKind.mq6 ((1250:ℝ) / 5000)) * sensorSensitivity SensorKind.mq6 ∧
    readPpm SensorKind.mq6 1250 5000 = 10000 * sensorSensitivity SensorKind.mq6 := by
  have hbig : (10000:ℝ) ≤ curvePpm SensorKind.mq6 ((1250:ℝ) / 5000) := by
    rw [curve_at_quarter]
    norm_num
  have h := C7_clamp_before_scaling SensorKind.mq6 1250 5000
    (by norm_num) (by norm_num) (by norm_num)
  exact ⟨⟨by norm_num, by norm_num, by norm_num, hbig⟩, h.1, h.2 hbig⟩

/-! ### Claim C8 (corrected) -/

/-- Claim C8 (amended): a poll tick with one failed channel read is not
aborted — the stored per-channel snapshot keeps the previous valid reading,
but the fusion and the smart alert evaluation consume ZERO for the failed
channel (the local read variable's zero initializer), not the previous
valid reading. -/
theorem C8_zero_substitution :
    ∀ (prevMq6 prevMq2 s2 : ChannelSample),
      readSensorTick prevMq6 prevMq2 none (some s2) =
        ⟨prevMq6, s2, evaluateSensorData 0 s2.ppm,
          determineSmartAlertLevel (evaluateSensorData 0 s2.ppm)⟩ ∧
      readSensorTick prevMq6 prevMq2 (some s2) none =
        ⟨s2, prevMq2, evaluateSensorData s2.ppm 0,
          determineSmartAlertLevel (evaluateSensorData s2.ppm 0)⟩ := by
  intro prevMq6 prevMq2 s2
  exact ⟨rfl, rfl⟩

/-- Claim C8 counterexample: with a previous valid MQ6 reading of 150 ppm
and a failed MQ6 read, the fused minimum is 0 — the fusion did not use the
previous valid reading (which would give a fused minimum of 150) — while the
stored snapshot does keep the 150 ppm reading. -/
theorem C8_counterexample :
    (readSensorTick ⟨500, 150⟩ ⟨500, 140⟩ none (some ⟨500, 150⟩)).fused.minPpm = 0 ∧
    (evaluateSensorData 150 150).minPpm = 150 ∧
    (readSensorTick ⟨500, 150⟩ ⟨500, 140⟩ none (some ⟨500, 150⟩)).mq6Stored = ⟨500, 150⟩ ∧
    (0:ℚ) ≠ 150 := by
  refine ⟨by norm_num [readSensorTick, evaluateSensorData],
    by norm_num [evaluateSensorData], rfl, by norm_num⟩

/-! ### Claim C10 (corrected) -/

/-- Claim C10 (amended): persisting a last-known location and loading it
back reconstructs the identical record — same latitude, longitude and
accuracy — with a non-negative computed age, PROVIDED its latitude and
longitude are nonzero (the loader's truthiness validation). -/
theorem C10_roundtrip (rec : LastKnown) (file : Option LastKnown) (now : ℤ)
    (h1 : rec.latitude ≠ 0) (h2 : rec.longitude ≠ 0)
    (h3 : (rec.timestamp : ℤ) ≤ now) :
    loadPersistedLocation (savePersistedLocation (some rec) file) = some rec ∧
    0 ≤ locationAgeMs now rec.timestamp ∧
    0 ≤ locationAgeSeconds now rec.timestamp := by
  refine ⟨?_, ?_, ?_⟩
  · simp only [savePersistedLocation, loadPersistedLocation]
    rw [if_pos ⟨h1, h2⟩]
  · simp only [locationAgeMs]
    omega
  · simp only [locationAgeSeconds, locationAgeMs]
    apply Int.floor_nonneg.mpr
    apply div_nonneg _ (by norm_num)
    have h : (0:ℤ) ≤ now - (rec.timestamp : ℤ) := by omega
    exact_mod_cast Int.cast_nonneg.mpr h

/-- Claim C10 witness: the round-trip theorem applied to a concrete
persisted location with nonzero coordinates, reloaded 1000 ms later. -/
theorem C10_witness :
    (c10GoodLoc.latitude ≠ 0 ∧ c10GoodLoc.longitude ≠ 0 ∧
      ((c10GoodLoc.timestamp : ℤ) ≤ 2000)) ∧
    loadPersistedLocation (savePersistedLocation (some c10GoodLoc) none) = some c10GoodLoc ∧
    0 ≤ locationAgeMs 2000 c10GoodLoc.timestamp ∧
    0 ≤ locationAgeSeconds 2000 c10GoodLoc.timestamp := by
  have h := C10_roundtrip c10GoodLoc none 2000 (by norm_num [c10GoodLoc])
    (by norm_num [c10GoodLoc]) (by norm_num [c10GoodLoc])
  exact ⟨⟨by norm_num [c10GoodLoc], by norm_num [c10GoodLoc], by norm_num [c10GoodLoc]⟩,
    h.1, h.2.1, h.2.2⟩

/-- Claim C10 counterexample: a written last-known location on the equator
(latitude exactly 0) is NOT reconstructed on reload — the loader's
truthiness check rejects it, so no cached position with the same latitude
exists after restart. -/
theorem C10_counterexample :
    c10EquatorLoc.latitude = 0 ∧
    loadPersistedLocation (savePersistedLocation (some c10EquatorLoc) none) = none := by
  constructor
  · norm_num [c10EquatorLoc]
  · simp [savePersistedLocation, loadPersistedLocation, c10EquatorLoc]

end GasGuard
